import Mathlib

/-!
Verification development for the IntelliVulnScan scan-orchestration and
ML-prioritization core.  The definitions below are a shallow embedding of
the Python source: `app/services/scan_service.py`, `app/tasks/scan_tasks.py`,
`app/api/endpoints/scans.py` and `app/services/ml_service.py`.  Database
tables are lists of records, timestamps are abstract `Nat` ticks, SQLAlchemy
commits are explicit state updates, and Python exceptions are `Except`
values.  Numeric scores use `ℚ`.
-/

namespace IntelliVulnScan

/-- The record stored in the `scans` table (`app/models/scan.py`).
Timestamps are abstract ticks; nullable columns are `Option`. -/
structure Scan where
  id : Nat
  name : String
  scanner_type : String
  asset_id : Option Nat
  target_type : String
  target_identifier : String
  scan_depth : String
  status : String
  created_at : Nat
  updated_at : Nat
  started_at : Option Nat
  completed_at : Option Nat
  vulnerabilities_count : Nat
  critical_count : Nat
  high_count : Nat
  medium_count : Nat
  low_count : Nat
deriving DecidableEq

/-- The scans table: a list of scan rows. -/
abbrev ScanDb := List Scan

/-- `scan_service.get_scan`: `db.query(Scan).filter(Scan.id == scan_id).first()`. -/
def get_scan (db : ScanDb) (scan_id : Nat) : Option Scan :=
  db.find? (fun s => s.id == scan_id)

/-- Committing an in-place mutation of the row with the given id. -/
def set_scan (db : ScanDb) (scan_id : Nat) (f : Scan → Scan) : ScanDb :=
  db.map (fun s => if s.id == scan_id then f s else s)

/-- `scan_service.start_scan`: looks the scan up; when found, unconditionally
sets `status = "running"`, `started_at = now`, `updated_at = now` and commits.
There is no check of the current status in the source. -/
def start_scan (db : ScanDb) (scan_id : Nat) (now : Nat) : ScanDb × Option Scan :=
  match get_scan db scan_id with
  | none => (db, none)
  | some s =>
      let upd : Scan → Scan := fun t =>
        { t with status := "running", started_at := some now, updated_at := now }
      (set_scan db scan_id upd, some (upd s))

/-- `scan_service.stop_scan`: looks the scan up; when found, unconditionally
sets `status = "stopped"` and `updated_at = now` and commits. -/
def stop_scan (db : ScanDb) (scan_id : Nat) (now : Nat) : ScanDb × Option Scan :=
  match get_scan db scan_id with
  | none => (db, none)
  | some s =>
      let upd : Scan → Scan := fun t => { t with status := "stopped", updated_at := now }
      (set_scan db scan_id upd, some (upd s))

/-- `scan_service.update_scan_status`.  The `message` parameter of the source
function is accepted but never stored (the `Scan` model has no message
column), so it does not appear here.  `completed_at` is set only when the
new status is `"completed"`; each count is written only when supplied. -/
def update_scan_status (db : ScanDb) (scan_id : Nat) (status : String)
    (vulnerabilities_count critical_count high_count medium_count low_count : Option Nat)
    (now : Nat) : ScanDb × Option Scan :=
  match get_scan db scan_id with
  | none => (db, none)
  | some s =>
      let upd : Scan → Scan := fun t =>
        { t with
            status := status
          , updated_at := now
          , completed_at := if status == "completed" then some now else t.completed_at
          , vulnerabilities_count := vulnerabilities_count.getD t.vulnerabilities_count
          , critical_count := critical_count.getD t.critical_count
          , high_count := high_count.getD t.high_count
          , medium_count := medium_count.getD t.medium_count
          , low_count := low_count.getD t.low_count }
      (set_scan db scan_id upd, some (upd s))

/-- HTTP-level rejections raised by the endpoints in
`app/api/endpoints/scans.py`. -/
inductive ApiError where
  | notFound (detail : String)
  | badRequest (detail : String)
deriving DecidableEq

/-- `scans.start_scan_endpoint`: 404 when the scan does not exist, otherwise
calls `start_scan` and schedules the background task.  The source performs no
status check before starting. -/
def start_scan_endpoint (db : ScanDb) (scan_id : Nat) (now : Nat) :
    ScanDb × Except ApiError Scan :=
  match get_scan db scan_id with
  | none => (db, Except.error (ApiError.notFound "Scan not found"))
  | some _ =>
      match start_scan db scan_id now with
      | (db', some s') => (db', Except.ok s')
      | (db', none) => (db', Except.error (ApiError.notFound "Scan not found"))

/-- `scans.stop_scan_endpoint`: 404 when the scan does not exist, 400
`"Scan is not running"` when its status is not `"running"`, otherwise calls
`stop_scan`. -/
def stop_scan_endpoint (db : ScanDb) (scan_id : Nat) (now : Nat) :
    ScanDb × Except ApiError Scan :=
  match get_scan db scan_id with
  | none => (db, Except.error (ApiError.notFound "Scan not found"))
  | some s =>
      if s.status != "running" then
        (db, Except.error (ApiError.badRequest "Scan is not running"))
      else
        match stop_scan db scan_id now with
        | (db', some s') => (db', Except.ok s')
        | (db', none) => (db', Except.error (ApiError.notFound "Scan not found"))

/-- A scan row that has already reached the terminal status `completed`. -/
def completedScan : Scan :=
  { id := 1, name := "nightly", scanner_type := "trivy", asset_id := some 1,
    target_type := "container", target_identifier := "ubuntu:20.04",
    scan_depth := "normal", status := "completed", created_at := 0, updated_at := 3,
    started_at := some 1, completed_at := some 3, vulnerabilities_count := 2,
    critical_count := 1, high_count := 0, medium_count := 0, low_count := 1 }

/-- A freshly created scan row, still `pending`. -/
def pendingScan : Scan :=
  { id := 2, name := "adhoc", scanner_type := "trivy", asset_id := some 1,
    target_type := "container", target_identifier := "alpine:3.19",
    scan_depth := "normal", status := "pending", created_at := 0, updated_at := 0,
    started_at := none, completed_at := none, vulnerabilities_count := 0,
    critical_count := 0, high_count := 0, medium_count := 0, low_count := 0 }

/-- A scan row currently `running`. -/
def runningScan : Scan :=
  { id := 3, name := "live", scanner_type := "openvas", asset_id := some 2,
    target_type := "host", target_identifier := "10.0.0.7",
    scan_depth := "deep", status := "running", created_at := 0, updated_at := 1,
    started_at := some 1, completed_at := none, vulnerabilities_count := 0,
    critical_count := 0, high_count := 0, medium_count := 0, low_count := 0 }

/-- A value stored in a finding's metadata map (string or list of strings in
the source dictionaries). -/
inductive MetaVal where
  | s (v : String)
  | sl (v : List String)
deriving DecidableEq

/-- The free-form metadata map attached to a finding. -/
abbrev Metadata := List (String × MetaVal)

/-- A raw finding dictionary as handed from a scanner adapter to the
normalizer: every key may be absent (`none`). -/
structure Finding where
  title : Option String := none
  description : Option String := none
  cve_id : Option String := none
  severity : Option String := none
  cvss_score : Option ℚ := none
  cvss_vector : Option String := none
  exploit_available : Option Bool := none
  exploit_maturity : Option String := none
  patch_available : Option Bool := none
  affected_component : Option String := none
  affected_version : Option String := none
  business_impact : Option String := none
  data_classification : Option String := none
  system_exposure : Option String := none
  metadata : Option Metadata := none
deriving DecidableEq

/-- A finding dictionary with no keys at all. -/
def emptyFinding : Finding := {}

/-- The record stored in the `vulnerabilities` table, as populated by
`scan_service.create_vulnerability_from_finding`. -/
structure Vulnerability where
  title : String
  description : String
  cve_id : String
  severity : String
  cvss_score : ℚ
  cvss_vector : String
  asset_id : Option Nat
  scan_id : Nat
  status : String
  exploit_available : Bool
  exploit_maturity : String
  patch_available : Bool
  affected_component : String
  affected_version : String
  business_impact : String
  data_classification : String
  system_exposure : String
  metadata : Metadata
deriving DecidableEq

/-- `scan_service.create_vulnerability_from_finding`: each field is
`finding.get(key, default)` with the defaults of the source; `status` is
always `"open"`. -/
def create_vulnerability_from_finding (scan_id : Nat) (asset_id : Option Nat)
    (finding : Finding) : Vulnerability :=
  { title := finding.title.getD "Unknown"
  , description := finding.description.getD ""
  , cve_id := finding.cve_id.getD ""
  , severity := finding.severity.getD "low"
  , cvss_score := finding.cvss_score.getD 0
  , cvss_vector := finding.cvss_vector.getD ""
  , asset_id := asset_id
  , scan_id := scan_id
  , status := "open"
  , exploit_available := finding.exploit_available.getD false
  , exploit_maturity := finding.exploit_maturity.getD ""
  , patch_available := finding.patch_available.getD false
  , affected_component := finding.affected_component.getD ""
  , affected_version := finding.affected_version.getD ""
  , business_impact := finding.business_impact.getD ""
  , data_classification := finding.data_classification.getD ""
  , system_exposure := finding.system_exposure.getD ""
  , metadata := finding.metadata.getD [] }

/-- `scan_tasks.process_scan_findings`: one vulnerability record per finding. -/
def process_scan_findings (scan_id : Nat) (asset_id : Option Nat)
    (findings : List Finding) : List Vulnerability :=
  findings.map (create_vulnerability_from_finding scan_id asset_id)

/-- The five aggregate counters computed on the completion path of
`scan_tasks.run_scan_task`. -/
structure ScanCounts where
  total : Nat
  critical : Nat
  high : Nat
  medium : Nat
  low : Nat
deriving DecidableEq

/-- The counters exactly as `run_scan_task` computes them: the total is the
length of the raw findings list, and each bucket counts raw findings whose
`severity` key equals that bucket's name
(`sum(1 for f in findings if f.get("severity") == ...)`). -/
def completed_scan_counts (findings : List Finding) : ScanCounts :=
  { total := findings.length
  , critical := (findings.filter (fun f => f.severity == some "critical")).length
  , high := (findings.filter (fun f => f.severity == some "high")).length
  , medium := (findings.filter (fun f => f.severity == some "medium")).length
  , low := (findings.filter (fun f => f.severity == some "low")).length }

/-- Number of stored vulnerability records carrying the given severity. -/
def severity_record_count (vulns : List Vulnerability) (sev : String) : Nat :=
  (vulns.filter (fun v => v.severity == sev)).length

/-- What a scanner adapter returns to `run_scan_task`.  The success dict of
the source also carries a `raw_output` key, which `run_scan_task` never
reads; it is not modelled. -/
structure ScanResult where
  status : String
  message : String
  findings : List Finding
deriving DecidableEq

/-- Outcome of invoking the external tool and parsing its output:
`procError` is `subprocess.CalledProcessError` (non-zero exit), `fault` is
any other exception (malformed JSON, I/O error, conversion error), `output`
is a successfully parsed report. -/
inductive ExtProcOutcome (α : Type) where
  | procError (stderr : String)
  | fault (msg : String)
  | output (o : α)

/-- The `CVSS.nvd` object of a Trivy vulnerability entry. -/
structure TrivyNvd where
  V3Score : Option ℚ := none
  V3Vector : Option String := none
deriving DecidableEq

/-- The `CVSS` object of a Trivy vulnerability entry. -/
structure TrivyCVSS where
  nvd : Option TrivyNvd := none
deriving DecidableEq

/-- One entry of a Trivy result's `Vulnerabilities` array. -/
structure TrivyVuln where
  Title : Option String := none
  VulnerabilityID : Option String := none
  Description : Option String := none
  Severity : Option String := none
  CVSS : Option TrivyCVSS := none
  InstalledVersion : Option String := none
  ExploitAvailable : Option Bool := none
  FixedVersion : Option String := none
  PkgName : Option String := none
  References : Option (List String) := none
deriving DecidableEq

/-- One entry of Trivy's `Results` array. -/
structure TrivyResult where
  Target : Option String := none
  Vulnerabilities : Option (List TrivyVuln) := none
deriving DecidableEq

/-- A parsed Trivy JSON report. -/
structure TrivyOutput where
  Results : Option (List TrivyResult) := none
deriving DecidableEq

/-- Python's `str.lower()` over the ASCII range, applied character-wise. -/
def lowerAscii (s : String) : String :=
  String.mk (s.data.map Char.toLower)

/-- The finding dictionary `run_trivy_scan` builds from one Trivy
vulnerability entry: every key is present, with the source's `.get`
defaults (`float(vuln.get("CVSS", {}).get("nvd", {}).get("V3Score", 0.0))`
becomes the nested match). -/
def trivy_finding (target : Option String) (v : TrivyVuln) : Finding :=
  { title := some (v.Title.getD (v.VulnerabilityID.getD "Unknown"))
  , description := some (v.Description.getD "")
  , cve_id := some (v.VulnerabilityID.getD "")
  , severity := some (lowerAscii (v.Severity.getD ""))
  , cvss_score := some (match v.CVSS with
      | none => 0
      | some c => match c.nvd with
        | none => 0
        | some n => n.V3Score.getD 0)
  , cvss_vector := some (match v.CVSS with
      | none => ""
      | some c => match c.nvd with
        | none => ""
        | some n => n.V3Vector.getD "")
  , affected_component := some (target.getD "")
  , affected_version := some (v.InstalledVersion.getD "")
  , exploit_available := some (v.ExploitAvailable.getD false)
  , patch_available := some ((v.FixedVersion.getD "") != "")
  , metadata := some [("package_name", MetaVal.s (v.PkgName.getD "")),
                      ("fixed_version", MetaVal.s (v.FixedVersion.getD "")),
                      ("references", MetaVal.sl (v.References.getD []))] }

/-- `scan_tasks.run_trivy_scan`.  The construction of the command line from
scan depth and target type only shapes the external invocation, which is
abstracted into `env`; the try/except structure of the source maps the three
outcomes to the three branches. -/
def run_trivy_scan (_scan : Scan) (env : ExtProcOutcome TrivyOutput) : ScanResult :=
  match env with
  | .procError stderr =>
      { status := "failed", message := "Trivy scan failed: " ++ stderr, findings := [] }
  | .fault msg =>
      { status := "failed", message := "Error running Trivy scan: " ++ msg, findings := [] }
  | .output o =>
      { status := "success"
      , message := "Scan completed successfully"
      , findings := (o.Results.getD []).flatMap (fun r =>
          (r.Vulnerabilities.getD []).map (trivy_finding r.Target)) }

/-- The `cvssv3` object of a Dependency-Check vulnerability entry. -/
structure DepCheckCvssv3 where
  baseScore : Option ℚ := none
  attackVector : Option String := none
deriving DecidableEq

/-- One vulnerability entry of a Dependency-Check dependency. -/
structure DepCheckVuln where
  name : Option String := none
  description : Option String := none
  severity : Option String := none
  cvssv3 : Option DepCheckCvssv3 := none
  references : Option (List String) := none
deriving DecidableEq

/-- One entry of a Dependency-Check report's `dependencies` array. -/
structure DepCheckDependency where
  fileName : Option String := none
  version : Option String := none
  vulnerabilities : Option (List DepCheckVuln) := none
deriving DecidableEq

/-- A parsed Dependency-Check JSON report. -/
structure DepCheckReport where
  dependencies : Option (List DepCheckDependency) := none
deriving DecidableEq

/-- The finding dictionary `run_dependency_check_scan` builds from one
vulnerability entry; `exploit_available` is hard-coded `False` and
`patch_available` hard-coded `True` in the source. -/
def depcheck_finding (dep : DepCheckDependency) (v : DepCheckVuln) : Finding :=
  { title := some (v.name.getD "Unknown")
  , description := some (v.description.getD "")
  , cve_id := some (v.name.getD "")
  , severity := some (lowerAscii (v.severity.getD ""))
  , cvss_score := some (match v.cvssv3 with
      | none => 0
      | some c => c.baseScore.getD 0)
  , cvss_vector := some (match v.cvssv3 with
      | none => ""
      | some c => c.attackVector.getD "")
  , affected_component := some (dep.fileName.getD "")
  , affected_version := some (dep.version.getD "")
  , exploit_available := some false
  , patch_available := some true
  , metadata := some [("package_name", MetaVal.s (dep.fileName.getD "")),
                      ("references", MetaVal.sl (v.references.getD []))] }

/-- `scan_tasks.run_dependency_check_scan`: same try/except shape as the
Trivy adapter (reading and deleting the report file are part of the guarded
region, so their I/O errors land in `fault`). -/
def run_dependency_check_scan (_scan : Scan) (env : ExtProcOutcome DepCheckReport) :
    ScanResult :=
  match env with
  | .procError stderr =>
      { status := "failed", message := "Dependency-Check scan failed: " ++ stderr, findings := [] }
  | .fault msg =>
      { status := "failed", message := "Error running Dependency-Check scan: " ++ msg, findings := [] }
  | .output o =>
      { status := "success"
      , message := "Scan completed successfully"
      , findings := (o.dependencies.getD []).flatMap (fun d =>
          (d.vulnerabilities.getD []).map (depcheck_finding d)) }

/-- First hard-coded finding of the OpenVAS placeholder adapter. -/
def openvasFinding1 : Finding :=
  { title := some "SSH Weak Encryption Algorithms Supported"
  , description := some "The SSH server is configured to support weak encryption algorithms."
  , cve_id := some "CVE-2020-14145"
  , severity := some "medium"
  , cvss_score := some (53/10)
  , cvss_vector := some "CVSS:3.1/AV:N/AC:L/PR:N/UI:N/S:U/C:L/I:N/A:N"
  , affected_component := some "SSH"
  , affected_version := some "OpenSSH 7.9"
  , exploit_available := some false
  , patch_available := some true
  , metadata := some [("port", MetaVal.s "22"), ("protocol", MetaVal.s "tcp"),
      ("solution", MetaVal.s "Configure SSH server to disable weak encryption algorithms.")] }

/-- Second hard-coded finding of the OpenVAS placeholder adapter. -/
def openvasFinding2 : Finding :=
  { title := some "HTTP TRACE/TRACK Methods Allowed"
  , description := some "The HTTP TRACE/TRACK methods are enabled on the web server."
  , cve_id := some "CVE-2004-2320"
  , severity := some "low"
  , cvss_score := some (37/10)
  , cvss_vector := some "CVSS:3.1/AV:N/AC:H/PR:N/UI:N/S:U/C:L/I:N/A:N"
  , affected_component := some "Web Server"
  , affected_version := some "Apache 2.4.41"
  , exploit_available := some true
  , patch_available := some true
  , metadata := some [("port", MetaVal.s "80"), ("protocol", MetaVal.s "tcp"),
      ("solution", MetaVal.s "Disable TRACE/TRACK methods in web server configuration.")] }

/-- `scan_tasks.run_openvas_scan`: a placeholder that always succeeds with
two simulated findings. -/
def run_openvas_scan (_scan : Scan) : ScanResult :=
  { status := "success"
  , message := "Scan completed successfully"
  , findings := [openvasFinding1, openvasFinding2] }

/-- The external-world inputs `run_scan_task` may consume: one outcome per
external-process-backed adapter. -/
structure ScanEnv where
  trivy : ExtProcOutcome TrivyOutput
  depcheck : ExtProcOutcome DepCheckReport

/-- The status/message dictionary `run_scan_task` returns to the task queue. -/
structure TaskResult where
  status : String
  message : String
deriving DecidableEq

/-- The if/elif chain of `run_scan_task` that selects and invokes a scanner
adapter by `scanner_type`: `trivy`, `openvas` and `dependency-check` each
invoke their adapter; any other value — including `custom`, which the schema
validator accepts — falls through to `none` (no adapter). -/
def dispatch_adapter (scan : Scan) (env : ScanEnv) : Option ScanResult :=
  if scan.scanner_type == "trivy" then some (run_trivy_scan scan env.trivy)
  else if scan.scanner_type == "openvas" then some (run_openvas_scan scan)
  else if scan.scanner_type == "dependency-check" then
    some (run_dependency_check_scan scan env.depcheck)
  else none

/-- `scan_tasks.run_scan_task`, acting on the scans table and the
vulnerabilities table.  Mirrors the source: missing scan short-circuits;
the scan is first marked `running` (the `updated_at` refresh comes from the
column's `onupdate` hook); the adapter is chosen by an if/elif chain over
`scanner_type` with no branch for `custom`; a success result creates the
vulnerability records and stores the counters computed from the raw
findings; any failure result marks the scan `failed`. -/
def run_scan_task (db : ScanDb) (vdb : List Vulnerability) (scan_id : Nat)
    (env : ScanEnv) (now : Nat) : ScanDb × List Vulnerability × TaskResult :=
  match get_scan db scan_id with
  | none =>
      (db, vdb, { status := "failed"
                , message := "Scan with ID " ++ toString scan_id ++ " not found" })
  | some s =>
      let scanR : Scan := { s with status := "running", started_at := some now, updated_at := now }
      let db1 := set_scan db scan_id
        (fun t => { t with status := "running", started_at := some now, updated_at := now })
      match dispatch_adapter scanR env with
      | none =>
          ((update_scan_status db1 scan_id "failed" none none none none none now).1,
           vdb,
           { status := "failed"
           , message := "Unsupported scanner type: " ++ scanR.scanner_type })
      | some results =>
          if results.status == "success" then
            let vdb' := vdb ++ process_scan_findings scan_id s.asset_id results.findings
            let counts := completed_scan_counts results.findings
            ((update_scan_status db1 scan_id "completed"
                (some counts.total) (some counts.critical) (some counts.high)
                (some counts.medium) (some counts.low) now).1,
             vdb',
             { status := results.status, message := results.message })
          else
            ((update_scan_status db1 scan_id "failed" none none none none none now).1,
             vdb,
             { status := results.status, message := results.message })

/-- A pending scan whose declared scanner kind is `custom` — a value the
schema validator accepts. -/
def customScan : Scan :=
  { id := 4, name := "bespoke", scanner_type := "custom", asset_id := some 3,
    target_type := "application", target_identifier := "https://example.test",
    scan_depth := "normal", status := "pending", created_at := 0, updated_at := 0,
    started_at := none, completed_at := none, vulnerabilities_count := 0,
    critical_count := 0, high_count := 0, medium_count := 0, low_count := 0 }

/-- A Trivy report containing one vulnerability entry with no keys at all —
in particular no `Severity`, which the adapter therefore lower-cases from
the default `""`. -/
def noSeverityTrivyOutput : TrivyOutput :=
  { Results := some [{ Target := some "ubuntu:20.04", Vulnerabilities := some [{}] }] }

/-- Environment in which Trivy returns the no-severity report. -/
def envNoSeverity : ScanEnv :=
  { trivy := ExtProcOutcome.output noSeverityTrivyOutput
  , depcheck := ExtProcOutcome.fault "not invoked" }

/-- Environment in which both external tools would succeed with empty
reports. -/
def envAllOk : ScanEnv :=
  { trivy := ExtProcOutcome.output {}, depcheck := ExtProcOutcome.output {} }

/-- Environment in which both external tools would exit non-zero. -/
def envAllBroken : ScanEnv :=
  { trivy := ExtProcOutcome.procError "exit status 1"
  , depcheck := ExtProcOutcome.procError "exit status 1" }

/-- A finding dictionary in which every normalized key is present. -/
def richFinding : Finding :=
  { title := some "Heap overflow in libexample"
  , description := some "A crafted packet overflows a heap buffer."
  , cve_id := some "CVE-2024-0001"
  , severity := some "critical"
  , cvss_score := some (98/10)
  , cvss_vector := some "CVSS:3.1/AV:N/AC:L/PR:N/UI:N/S:U/C:H/I:H/A:H"
  , exploit_available := some true
  , exploit_maturity := some "functional"
  , patch_available := some false
  , affected_component := some "libexample"
  , affected_version := some "1.2.3"
  , business_impact := some "high"
  , data_classification := some "confidential"
  , system_exposure := some "internet"
  , metadata := some [("package_name", MetaVal.s "libexample")] }

/-- A finding with severity `critical` and one with severity `low`, matching
the spec's worked example. -/
def criticalFinding : Finding := { richFinding with severity := some "critical" }

/-- A low-severity finding. -/
def lowFinding : Finding :=
  { title := some "Outdated banner", severity := some "low", cvss_score := some (21/10) }

/-- A serialized (pickled) model payload: a byte string. -/
abbrev ModelBytes := List Nat

/-- The record stored in the `ml_models` table (`app/models/ml_model.py`).
The JSON columns carry string-keyed numeric maps. -/
structure MLModel where
  id : Nat
  name : String
  model_type : String
  version : Option String
  hyperparameters : List (String × ℚ)
  metrics : List (String × ℚ)
  feature_importance : List (String × ℚ)
  model_data : Option ModelBytes
  status : String
  created_at : Nat
  updated_at : Nat
deriving DecidableEq

/-- The ml_models table: a list of model rows. -/
abbrev ModelDb := List MLModel

/-- Python truthiness of the nullable bytes column `model_data`: `None` and
the empty byte string are falsy. -/
def model_data_truthy : Option ModelBytes → Bool
  | none => false
  | some bs => !bs.isEmpty

/-- `ml_service.get_model`. -/
def get_model (db : ModelDb) (model_id : Nat) : Option MLModel :=
  db.find? (fun m => m.id == model_id)

/-- Committing an in-place mutation of the model row with the given id. -/
def set_model (db : ModelDb) (model_id : Nat) (f : MLModel → MLModel) : ModelDb :=
  db.map (fun m => if m.id == model_id then f m else m)

/-- The accumulator step realizing `order_by(updated_at.desc()).limit(1)`:
keep the row with the larger `updated_at` (first such row on ties, where SQL
leaves the order unspecified). -/
def pickLatest (acc : Option MLModel) (m : MLModel) : Option MLModel :=
  match acc with
  | none => some m
  | some b => if b.updated_at < m.updated_at then some m else some b

/-- The fallback query of `_get_latest_model`: models with status `trained`
and `model_data IS NOT NULL`, most recently updated first row. -/
def latest_trained_model (db : ModelDb) : Option MLModel :=
  (db.filter (fun m => m.status == "trained" && m.model_data.isSome)).foldl pickLatest none

/-- `ml_service._get_latest_model`: `if model_id:` (false for `None` and
`0`) tries the explicit model, which is returned only when its status is
`trained` and its payload is truthy; otherwise the fallback query runs. -/
def get_latest_model (db : ModelDb) (model_id : Option Nat) : Option MLModel :=
  match model_id with
  | none => latest_trained_model db
  | some mid =>
      if mid == 0 then latest_trained_model db
      else
        match get_model db mid with
        | none => latest_trained_model db
        | some m =>
            if m.status == "trained" && model_data_truthy m.model_data then some m
            else latest_trained_model db

/-- The vulnerability dictionary consumed by the feature extractor: only the
keys `_get_vulnerability_features` reads are modelled, each possibly
absent. -/
structure VulnData where
  cvss_score : Option ℚ := none
  exploit_available : Option Bool := none
  patch_available : Option Bool := none
  severity : Option String := none
  exploit_maturity : Option String := none
  business_impact : Option String := none
  data_classification : Option String := none
  system_exposure : Option String := none
deriving DecidableEq

/-- `int(b)` on a Python boolean. -/
def boolNum (b : Bool) : ℚ := if b then 1 else 0

/-- `ml_service._get_vulnerability_features`: the insertion-ordered feature
dictionary — three numeric features followed by the one-hot indicator
groups for severity (default `"low"`), exploit maturity, business impact,
data classification and system exposure (default `""`), 23 entries in
total. -/
def get_vulnerability_features (vd : VulnData) : List (String × ℚ) :=
  let severity := lowerAscii (vd.severity.getD "low")
  let exploit_maturity := lowerAscii (vd.exploit_maturity.getD "")
  let business_impact := lowerAscii (vd.business_impact.getD "")
  let data_classification := lowerAscii (vd.data_classification.getD "")
  let system_exposure := lowerAscii (vd.system_exposure.getD "")
  [ ("cvss_score", vd.cvss_score.getD 0)
  , ("exploit_available", boolNum (vd.exploit_available.getD false))
  , ("patch_available", boolNum (vd.patch_available.getD false))
  , ("severity_critical", boolNum (severity == "critical"))
  , ("severity_high", boolNum (severity == "high"))
  , ("severity_medium", boolNum (severity == "medium"))
  , ("severity_low", boolNum (severity == "low"))
  , ("exploit_maturity_high", boolNum (exploit_maturity == "high"))
  , ("exploit_maturity_functional", boolNum (exploit_maturity == "functional"))
  , ("exploit_maturity_poc", boolNum (exploit_maturity == "poc"))
  , ("exploit_maturity_unproven", boolNum (exploit_maturity == "unproven"))
  , ("business_impact_critical", boolNum (business_impact == "critical"))
  , ("business_impact_high", boolNum (business_impact == "high"))
  , ("business_impact_medium", boolNum (business_impact == "medium"))
  , ("business_impact_low", boolNum (business_impact == "low"))
  , ("data_classification_restricted", boolNum (data_classification == "restricted"))
  , ("data_classification_confidential", boolNum (data_classification == "confidential"))
  , ("data_classification_internal", boolNum (data_classification == "internal"))
  , ("data_classification_public", boolNum (data_classification == "public"))
  , ("system_exposure_internet", boolNum (system_exposure == "internet"))
  , ("system_exposure_intranet", boolNum (system_exposure == "intranet"))
  , ("system_exposure_internal", boolNum (system_exposure == "internal"))
  , ("system_exposure_isolated", boolNum (system_exposure == "isolated")) ]

/-- The 23 feature names in the order the extractor emits them. -/
def featureNameOrder : List String :=
  [ "cvss_score", "exploit_available", "patch_available"
  , "severity_critical", "severity_high", "severity_medium", "severity_low"
  , "exploit_maturity_high", "exploit_maturity_functional", "exploit_maturity_poc"
  , "exploit_maturity_unproven"
  , "business_impact_critical", "business_impact_high", "business_impact_medium"
  , "business_impact_low"
  , "data_classification_restricted", "data_classification_confidential"
  , "data_classification_internal", "data_classification_public"
  , "system_exposure_internet", "system_exposure_intranet", "system_exposure_internal"
  , "system_exposure_isolated" ]

/-- The observable interface of a deserialized scikit-learn estimator: a
score for a feature vector, and feature importances when the estimator
exposes them (`hasattr(model, "feature_importances_")`). -/
structure FittedModel where
  predict : List ℚ → ℚ
  feature_importances : Option (List ℚ)

/-- The prediction object `ml_service.predict_vulnerability_priority`
builds. -/
structure MLPrediction where
  priority_score : ℚ
  model_id : Nat
  model_name : String
  model_version : Option String
  explanation : List (String × ℚ)
  timestamp : Nat

/-- `ml_service.predict_vulnerability_priority` (the per-model variant at
the bottom of the module, which shadows the earlier module-level function of
the same name).  Deserialization of the opaque payload is the `unpickle`
argument; any exception inside the try block — a null or corrupt payload —
is re-raised as `ValueError("Error predicting vulnerability priority: ...")`,
distinct from the selection failure `"No trained model found"`.  The
explanation pairs each feature name with the estimator's importance at the
same index. -/
def predict_vulnerability_priority (db : ModelDb) (vd : VulnData)
    (model_id : Option Nat) (unpickle : ModelBytes → Except String FittedModel)
    (now : Nat) : Except String MLPrediction :=
  match get_latest_model db model_id with
  | none => Except.error "No trained model found"
  | some db_model =>
      let features := get_vulnerability_features vd
      let feature_names := features.map Prod.fst
      let X := features.map Prod.snd
      match db_model.model_data with
      | none =>
          Except.error ("Error predicting vulnerability priority: " ++ "payload is null")
      | some bs =>
          match unpickle bs with
          | Except.error e =>
              Except.error ("Error predicting vulnerability priority: " ++ e)
          | Except.ok model =>
              Except.ok
                { priority_score := model.predict X
                , model_id := db_model.id
                , model_name := db_model.name
                , model_version := db_model.version
                , explanation :=
                    match model.feature_importances with
                    | none => []
                    | some imps => feature_names.zip imps
                , timestamp := now }

/-- Right-biased merge of two keyword maps (`dict.update`); overridden keys
take the incoming value. -/
def merge_params (base overrides : List (String × ℚ)) : List (String × ℚ) :=
  (base.filter (fun kv => overrides.all (fun kv2 => kv2.1 != kv.1))) ++ overrides

/-- The artifacts a successful fit produces and `train_model` persists:
evaluation metrics, per-feature importances, and the pickled estimator. -/
structure FitArtifacts where
  metrics : List (String × ℚ)
  feature_importance : List (String × ℚ)
  model_data : ModelBytes
deriving DecidableEq

/-- `ml_service.train_model` (the per-model variant at the bottom of the
module, which shadows the earlier module-level function of the same name).
The record is first committed with status `training`; the numeric work —
synthetic data generation, the train/test split, `model.fit`, metric
computation, `pickle.dumps` — is opaque and its outcome is the `fit`
argument.  On an exception only status and `updated_at` are rewritten
(status `error`); on success the merged hyperparameters, metrics, feature
importances, payload and status `trained` are committed together. -/
def train_model (db : ModelDb) (model_id : Nat) (params : List (String × ℚ))
    (fit : Except String FitArtifacts) (t1 t2 : Nat) : ModelDb × Option MLModel :=
  match get_model db model_id with
  | none => (db, none)
  | some _ =>
      let db1 := set_model db model_id
        (fun m => { m with status := "training", updated_at := t1 })
      match fit with
      | Except.error _ =>
          (set_model db1 model_id (fun m => { m with status := "error", updated_at := t2 }),
           none)
      | Except.ok art =>
          let upd : MLModel → MLModel := fun m =>
            { m with
                hyperparameters := merge_params m.hyperparameters params
              , metrics := art.metrics
              , feature_importance := art.feature_importance
              , model_data := some art.model_data
              , status := "trained"
              , updated_at := t2 }
          (set_model db1 model_id upd, get_model (set_model db1 model_id upd) model_id)

/-- `ml_service.get_priority_class`: fixed thresholds on the priority
score. -/
def get_priority_class (score : ℚ) : String :=
  if score ≥ 8/10 then "critical"
  else if score ≥ 6/10 then "high"
  else if score ≥ 4/10 then "medium"
  else "low"

/-- `ml_service.get_confidence`: distance of the score from 0.5, clamped to
[0, 1]. -/
def get_confidence (score : ℚ) : ℚ :=
  min 1 (max 0 (|score - 1/2| * 2))

/-- A trained model with a non-empty payload, last updated at tick 5. -/
def trainedModelA : MLModel :=
  { id := 1, name := "prioritizer", model_type := "gradient_boosting",
    version := some "1", hyperparameters := [("n_estimators", 100)],
    metrics := [("accuracy", 9/10)], feature_importance := [],
    model_data := some [128, 4, 149], status := "trained",
    created_at := 0, updated_at := 5 }

/-- A second trained model with a payload, updated more recently (tick 9). -/
def trainedModelB : MLModel :=
  { id := 2, name := "prioritizer-v2", model_type := "gradient_boosting",
    version := some "2", hyperparameters := [],
    metrics := [], feature_importance := [],
    model_data := some [128, 4, 150], status := "trained",
    created_at := 6, updated_at := 9 }

/-- A freshly created model: no payload yet. -/
def createdModel : MLModel :=
  { id := 3, name := "draft", model_type := "gradient_boosting",
    version := none, hyperparameters := [], metrics := [],
    feature_importance := [], model_data := none, status := "created",
    created_at := 10, updated_at := 10 }

/-- An `unpickle` that always succeeds with a constant estimator. -/
def stubUnpickle : ModelBytes → Except String FittedModel :=
  fun _ => Except.ok { predict := fun _ => 7/10, feature_importances := none }

/-- Updating rows matching the looked-up id commutes with the lookup,
provided the update preserves the id. -/
theorem get_scan_set_scan (db : ScanDb) (k : Nat) (f : Scan → Scan)
    (hf : ∀ s, (f s).id = s.id) :
    get_scan (set_scan db k f) k = (get_scan db k).map f := by
  induction db with
  | nil => rfl
  | cons a l ih =>
      by_cases h : a.id = k
      · have hfa : (f a).id = k := (hf a).trans h
        simp [get_scan, set_scan, List.find?_cons, h, hfa]
      · have hne : (a.id == k) = false := by simpa using h
        simp only [get_scan, set_scan, List.map_cons, hne, Bool.false_eq_true, if_false,
          List.find?_cons, cond_false] at *
        exact ih

/-- C1 (counterexample): the claim says a start request against a scan whose
status is `completed` is rejected and leaves the scan unchanged.  In the
source, `start_scan_endpoint` performs no status check: starting the
completed scan with id 1 succeeds, returns the scan with status `running`,
and overwrites the stored status and start timestamp. -/
theorem start_completed_scan_succeeds :
    (start_scan_endpoint [completedScan] 1 9).2 =
      Except.ok { completedScan with status := "running", started_at := some 9, updated_at := 9 } ∧
    get_scan (start_scan_endpoint [completedScan] 1 9).1 1 =
      some { completedScan with status := "running", started_at := some 9, updated_at := 9 } :=
  ⟨rfl, rfl⟩

/-- C1 (amended): a start request succeeds for every existing scan regardless
of its current status — the status becomes `running` and the start timestamp
is recorded even when the scan was `running`, `completed`, `failed`, or
`stopped`; only a request naming a nonexistent scan is rejected (as
not-found). -/
theorem start_scan_endpoint_unconditional (db : ScanDb) (scan_id now : Nat) :
    (∀ s, get_scan db scan_id = some s →
      (start_scan_endpoint db scan_id now).2 =
        Except.ok { s with status := "running", started_at := some now, updated_at := now } ∧
      get_scan (start_scan_endpoint db scan_id now).1 scan_id =
        some { s with status := "running", started_at := some now, updated_at := now }) ∧
    (get_scan db scan_id = none →
      start_scan_endpoint db scan_id now = (db, Except.error (ApiError.notFound "Scan not found"))) := by
  constructor
  · intro s h
    simp only [start_scan_endpoint, start_scan, h]
    refine ⟨trivial, ?_⟩
    rw [get_scan_set_scan db scan_id
      (fun t : Scan => { t with status := "running", started_at := some now, updated_at := now })
      (fun t => rfl), h]
    rfl
  · intro h
    simp only [start_scan_endpoint, h]

/-- C1 (witness): instantiating the amended start theorem at a one-row table
holding the pending scan with id 2. -/
theorem start_scan_endpoint_unconditional_witness :
    (start_scan_endpoint [pendingScan] 2 5).2 =
      Except.ok { pendingScan with status := "running", started_at := some 5, updated_at := 5 } :=
  ((start_scan_endpoint_unconditional [pendingScan] 2 5).1 pendingScan rfl).1

/-- C3: a stop request succeeds exactly when the scan's status is `running`
(the status becomes `stopped`, both in the response and in the table); a stop
request against a scan in any other status returns the invalid-operation
error `"Scan is not running"` and leaves the table — in particular the
scan's status — unchanged. -/
theorem stop_scan_endpoint_state_machine (db : ScanDb) (scan_id now : Nat) (s : Scan)
    (h : get_scan db scan_id = some s) :
    (s.status = "running" →
      (stop_scan_endpoint db scan_id now).2 =
        Except.ok { s with status := "stopped", updated_at := now } ∧
      get_scan (stop_scan_endpoint db scan_id now).1 scan_id =
        some { s with status := "stopped", updated_at := now }) ∧
    (s.status ≠ "running" →
      stop_scan_endpoint db scan_id now =
        (db, Except.error (ApiError.badRequest "Scan is not running"))) := by
  constructor
  · intro hrun
    have hcond : (s.status != "running") = false := by simp [hrun]
    simp only [stop_scan_endpoint, stop_scan, h, hcond, Bool.false_eq_true, if_false]
    refine ⟨trivial, ?_⟩
    rw [get_scan_set_scan db scan_id
      (fun t : Scan => { t with status := "stopped", updated_at := now })
      (fun t => rfl), h]
    rfl
  · intro hne
    have hcond : (s.status != "running") = true := by simpa using hne
    simp only [stop_scan_endpoint, h, hcond, if_true]

/-- C3 (witness): stopping the running scan with id 3 succeeds and yields
status `stopped`; stopping the completed scan with id 1 is rejected with the
invalid-operation error and the table is unchanged. -/
theorem stop_scan_endpoint_state_machine_witness :
    (stop_scan_endpoint [runningScan] 3 4).2 =
      Except.ok { runningScan with status := "stopped", updated_at := 4 } ∧
    stop_scan_endpoint [completedScan] 1 4 =
      ([completedScan], Except.error (ApiError.badRequest "Scan is not running")) :=
  ⟨((stop_scan_endpoint_state_machine [runningScan] 3 4 runningScan rfl).1 rfl).1,
   (stop_scan_endpoint_state_machine [completedScan] 1 4 completedScan rfl).2 (by decide)⟩

/-- After `update_scan_status`, looking the scan up again finds it with the
new status, whatever the optional counter arguments were. -/
theorem get_scan_update_scan_status (db : ScanDb) (k : Nat) (status : String)
    (v c hh m lo : Option Nat) (now : Nat) (s : Scan) (h : get_scan db k = some s) :
    (get_scan (update_scan_status db k status v c hh m lo now).1 k).map Scan.status =
      some status := by
  simp only [update_scan_status, h]
  rw [get_scan_set_scan]
  · rw [h]
    rfl
  · intro t
    rfl

/-- When every finding carries a severity key, counting stored records by
severity agrees with counting raw findings by their severity key. -/
theorem severity_record_count_eq_filter (sid : Nat) (aid : Option Nat)
    (l : List Finding) (sev : String) (h : ∀ f ∈ l, f.severity ≠ none) :
    severity_record_count (process_scan_findings sid aid l) sev =
      (l.filter (fun f => f.severity == some sev)).length := by
  unfold severity_record_count process_scan_findings
  rw [List.filter_map, List.length_map]
  congr 1
  apply List.filter_congr
  intro f hf
  rcases hx : f.severity with _ | v
  · exact absurd hx (h f hf)
  · show ((create_vulnerability_from_finding sid aid f).severity == sev) = _
    by_cases hv : v = sev <;> simp [create_vulnerability_from_finding, hx, hv]

/-- When every finding's severity key holds one of the four enumerated
values, the four severity buckets of the stored counters partition the
findings. -/
theorem bucket_sum_eq_total (l : List Finding) :
    (∀ f ∈ l, f.severity = some "critical" ∨ f.severity = some "high" ∨
      f.severity = some "medium" ∨ f.severity = some "low") →
    (completed_scan_counts l).critical + (completed_scan_counts l).high +
      (completed_scan_counts l).medium + (completed_scan_counts l).low =
      (completed_scan_counts l).total := by
  induction l with
  | nil => intro h; rfl
  | cons f t ih =>
      intro h
      have ht := ih (fun g hg => h g (List.mem_cons_of_mem f hg))
      simp only [completed_scan_counts, List.filter_cons, List.length_cons] at ht ⊢
      rcases h f (List.mem_cons_self f t) with hf | hf | hf | hf <;>
        simp [hf] <;> omega

/-- C2 (counterexample): the claim says the four per-severity counts of a
completed scan sum to its total and cover every stored record.  Running the
trivy scan over a report whose single vulnerability entry has no `Severity`
key, the scan completes with `vulnerabilities_count = 1` while all four
buckets are 0, and the single stored record has severity `""`, counted in no
bucket. -/
theorem completed_counts_not_partition :
    ((get_scan (run_scan_task [pendingScan] [] 2 envNoSeverity 7).1 2).map
      (fun s => (s.status, s.vulnerabilities_count,
        s.critical_count + s.high_count + s.medium_count + s.low_count)) =
      some ("completed", 1, 0)) ∧
    severity_record_count (run_scan_task [pendingScan] [] 2 envNoSeverity 7).2.1 "" = 1 ∧
    severity_record_count (run_scan_task [pendingScan] [] 2 envNoSeverity 7).2.1 "low" = 0 := by
  decide

/-- C2 (amended): the total stored on completion equals the number of
vulnerability records created for the scan; each per-severity count counts
the raw findings whose severity key equals that bucket exactly; and whenever
every finding's severity is one of `critical`, `high`, `medium`, `low` —
which is the only case the claim describes — each bucket equals the number
of stored records of that severity and the four buckets sum to the total.
Findings whose severity lies outside the four values (e.g. `""` from a tool
report without a severity) are counted in no bucket. -/
theorem completed_counts_from_findings (sid : Nat) (aid : Option Nat)
    (findings : List Finding)
    (h : ∀ f ∈ findings, f.severity = some "critical" ∨ f.severity = some "high" ∨
      f.severity = some "medium" ∨ f.severity = some "low") :
    (completed_scan_counts findings).total = (process_scan_findings sid aid findings).length ∧
    (completed_scan_counts findings).critical =
      severity_record_count (process_scan_findings sid aid findings) "critical" ∧
    (completed_scan_counts findings).high =
      severity_record_count (process_scan_findings sid aid findings) "high" ∧
    (completed_scan_counts findings).medium =
      severity_record_count (process_scan_findings sid aid findings) "medium" ∧
    (completed_scan_counts findings).low =
      severity_record_count (process_scan_findings sid aid findings) "low" ∧
    (completed_scan_counts findings).critical + (completed_scan_counts findings).high +
      (completed_scan_counts findings).medium + (completed_scan_counts findings).low =
      (completed_scan_counts findings).total := by
  have hne : ∀ f ∈ findings, f.severity ≠ none := by
    intro f hf
    rcases h f hf with h' | h' | h' | h' <;> simp [h']
  refine ⟨by simp [completed_scan_counts, process_scan_findings], ?_, ?_, ?_, ?_,
    bucket_sum_eq_total findings h⟩ <;>
    exact (severity_record_count_eq_filter sid aid findings _ hne).symm

/-- C2 (witness): the spec's worked example — findings with severities
{critical, critical, low} give critical_count = 2, low_count = 1, the
record-based counts agree, and the buckets sum to the total. -/
theorem completed_counts_from_findings_witness :
    (completed_scan_counts [criticalFinding, criticalFinding, lowFinding]).critical = 2 ∧
    (completed_scan_counts [criticalFinding, criticalFinding, lowFinding]).critical =
      severity_record_count
        (process_scan_findings 1 (some 1) [criticalFinding, criticalFinding, lowFinding])
        "critical" ∧
    (completed_scan_counts [criticalFinding, criticalFinding, lowFinding]).critical +
      (completed_scan_counts [criticalFinding, criticalFinding, lowFinding]).high +
      (completed_scan_counts [criticalFinding, criticalFinding, lowFinding]).medium +
      (completed_scan_counts [criticalFinding, criticalFinding, lowFinding]).low =
      (completed_scan_counts [criticalFinding, criticalFinding, lowFinding]).total := by
  have h := completed_counts_from_findings 1 (some 1)
    [criticalFinding, criticalFinding, lowFinding] (by decide)
  exact ⟨by decide, h.2.1, h.2.2.2.2.2⟩

/-- C4 (counterexample): the claim says a scan of kind `custom` — one of the
four enumerated kinds — dispatches to an adapter.  In the source, the
if/elif chain has no branch for `custom`: the task's outcome is independent
of every external-tool outcome, the scan is marked `failed` with the
configuration-error message, and the dispatcher selects no adapter. -/
theorem custom_kind_marked_failed :
    run_scan_task [customScan] [] 4 envAllOk 7 = run_scan_task [customScan] [] 4 envAllBroken 7 ∧
    (run_scan_task [customScan] [] 4 envAllOk 7).2.2 =
      { status := "failed", message := "Unsupported scanner type: custom" } ∧
    (get_scan (run_scan_task [customScan] [] 4 envAllOk 7).1 4).map Scan.status = some "failed" ∧
    dispatch_adapter { customScan with status := "running", started_at := some 7, updated_at := 7 }
      envAllOk = none := by
  decide

/-- C4 (amended): `run_scan_task` dispatches to the trivy, openvas and
dependency-check adapters for those three scanner kinds; for every other
kind — including `custom`, which the schema accepts — no adapter is
selected, the task result is independent of the external tools, the scan is
marked `failed`, the returned message is the configuration error, and no
vulnerability record is created. -/
theorem run_scan_task_dispatch (db : ScanDb) (vdb : List Vulnerability)
    (scan_id now : Nat) (s : Scan) (h : get_scan db scan_id = some s) :
    (s.scanner_type = "trivy" → ∀ env,
      dispatch_adapter { s with status := "running", started_at := some now, updated_at := now } env =
        some (run_trivy_scan { s with status := "running", started_at := some now, updated_at := now } env.trivy)) ∧
    (s.scanner_type = "openvas" → ∀ env,
      dispatch_adapter { s with status := "running", started_at := some now, updated_at := now } env =
        some (run_openvas_scan { s with status := "running", started_at := some now, updated_at := now })) ∧
    (s.scanner_type = "dependency-check" → ∀ env,
      dispatch_adapter { s with status := "running", started_at := some now, updated_at := now } env =
        some (run_dependency_check_scan { s with status := "running", started_at := some now, updated_at := now } env.depcheck)) ∧
    (s.scanner_type ≠ "trivy" → s.scanner_type ≠ "openvas" → s.scanner_type ≠ "dependency-check" →
      (∀ env, dispatch_adapter { s with status := "running", started_at := some now, updated_at := now } env = none) ∧
      (∀ env env', run_scan_task db vdb scan_id env now = run_scan_task db vdb scan_id env' now) ∧
      (∀ env,
        (run_scan_task db vdb scan_id env now).2.2 =
          { status := "failed", message := "Unsupported scanner type: " ++ s.scanner_type } ∧
        (get_scan (run_scan_task db vdb scan_id env now).1 scan_id).map Scan.status = some "failed" ∧
        (run_scan_task db vdb scan_id env now).2.1 = vdb)) := by
  refine ⟨?_, ?_, ?_, ?_⟩
  · intro ht env
    simp [dispatch_adapter, ht]
  · intro ht env
    simp [dispatch_adapter, ht]
  · intro ht env
    simp [dispatch_adapter, ht]
  · intro h1 h2 h3
    have hb1 : (s.scanner_type == "trivy") = false := by simpa using h1
    have hb2 : (s.scanner_type == "openvas") = false := by simpa using h2
    have hb3 : (s.scanner_type == "dependency-check") = false := by simpa using h3
    have hdisp : ∀ env, dispatch_adapter
        { s with status := "running", started_at := some now, updated_at := now } env = none := by
      intro env
      simp [dispatch_adapter, hb1, hb2, hb3]
    refine ⟨hdisp, ?_, ?_⟩
    · intro env env'
      simp only [run_scan_task, h, hdisp]
    · intro env
      simp only [run_scan_task, h, hdisp]
      refine ⟨trivial, ?_, trivial⟩
      have hget1 : get_scan (set_scan db scan_id
          (fun t => { t with status := "running", started_at := some now, updated_at := now }))
          scan_id = some { s with status := "running", started_at := some now, updated_at := now } := by
        rw [get_scan_set_scan]
        · rw [h]
          rfl
        · intro t
          rfl
      exact get_scan_update_scan_status _ scan_id "failed" none none none none none now _ hget1

/-- C4 (witness): the dispatch theorem instantiated at the trivy scan with
id 2 (adapter selected) and at the custom scan with id 4 (no adapter, no
record created). -/
theorem run_scan_task_dispatch_witness :
    dispatch_adapter { pendingScan with status := "running", started_at := some 5, updated_at := 5 } envAllOk =
      some (run_trivy_scan { pendingScan with status := "running", started_at := some 5, updated_at := 5 } envAllOk.trivy) ∧
    (run_scan_task [customScan] [] 4 envAllOk 5).2.1 = ([] : List Vulnerability) := by
  have h1 := run_scan_task_dispatch [pendingScan] [] 2 5 pendingScan rfl
  have h2 := run_scan_task_dispatch [customScan] [] 4 5 customScan rfl
  exact ⟨h1.1 rfl envAllOk,
    ((h2.2.2.2 (by decide) (by decide) (by decide)).2.2 envAllOk).2.2⟩

/-- C7: the external-process-backed adapters are total over every outcome of
the external tool.  A non-zero exit (`procError`) or any other exception —
malformed JSON, I/O error (`fault`) — is returned as a `failed` result with
a message and an empty findings list, never propagated; a parsed report
yields a `success` result. -/
theorem adapters_capture_failures :
    ∀ (scan : Scan) (stderr msg : String) (ot : TrivyOutput) (od : DepCheckReport),
    run_trivy_scan scan (ExtProcOutcome.procError stderr) =
      { status := "failed", message := "Trivy scan failed: " ++ stderr, findings := [] } ∧
    run_trivy_scan scan (ExtProcOutcome.fault msg) =
      { status := "failed", message := "Error running Trivy scan: " ++ msg, findings := [] } ∧
    (run_trivy_scan scan (ExtProcOutcome.output ot)).status = "success" ∧
    run_dependency_check_scan scan (ExtProcOutcome.procError stderr) =
      { status := "failed", message := "Dependency-Check scan failed: " ++ stderr, findings := [] } ∧
    run_dependency_check_scan scan (ExtProcOutcome.fault msg) =
      { status := "failed", message := "Error running Dependency-Check scan: " ++ msg, findings := [] } ∧
    (run_dependency_check_scan scan (ExtProcOutcome.output od)).status = "success" :=
  fun _ _ _ _ _ => ⟨rfl, rfl, rfl, rfl, rfl, rfl⟩

/-- C8: the normalizer's defaults — a missing title becomes `"Unknown"`,
missing description `""`, missing severity `"low"`, missing CVSS score `0`,
missing exploit/patch booleans `false` — and every present key passes
through unchanged. -/
theorem normalizer_defaults (f : Finding) (sid : Nat) (aid : Option Nat) :
    (f.title = none → (create_vulnerability_from_finding sid aid f).title = "Unknown") ∧
    (∀ v, f.title = some v → (create_vulnerability_from_finding sid aid f).title = v) ∧
    (f.description = none → (create_vulnerability_from_finding sid aid f).description = "") ∧
    (∀ v, f.description = some v → (create_vulnerability_from_finding sid aid f).description = v) ∧
    (f.severity = none → (create_vulnerability_from_finding sid aid f).severity = "low") ∧
    (∀ v, f.severity = some v → (create_vulnerability_from_finding sid aid f).severity = v) ∧
    (f.cvss_score = none → (create_vulnerability_from_finding sid aid f).cvss_score = 0) ∧
    (∀ v, f.cvss_score = some v → (create_vulnerability_from_finding sid aid f).cvss_score = v) ∧
    (f.exploit_available = none → (create_vulnerability_from_finding sid aid f).exploit_available = false) ∧
    (∀ v, f.exploit_available = some v → (create_vulnerability_from_finding sid aid f).exploit_available = v) ∧
    (f.patch_available = none → (create_vulnerability_from_finding sid aid f).patch_available = false) ∧
    (∀ v, f.patch_available = some v → (create_vulnerability_from_finding sid aid f).patch_available = v) := by
  refine ⟨?_, ?_, ?_, ?_, ?_, ?_, ?_, ?_, ?_, ?_, ?_, ?_⟩ <;>
    first
      | (intro h; simp [create_vulnerability_from_finding, h])
      | (intro v h; simp [create_vulnerability_from_finding, h])

/-- C8 (witness): the defaults realized on the empty finding dictionary and
the pass-through realized on a fully populated one. -/
theorem normalizer_defaults_witness :
    (create_vulnerability_from_finding 1 (some 1) emptyFinding).title = "Unknown" ∧
    (create_vulnerability_from_finding 1 (some 1) emptyFinding).severity = "low" ∧
    (create_vulnerability_from_finding 1 (some 1) emptyFinding).cvss_score = 0 ∧
    (create_vulnerability_from_finding 1 (some 1) emptyFinding).exploit_available = false ∧
    (create_vulnerability_from_finding 1 (some 1) richFinding).severity = "critical" ∧
    (create_vulnerability_from_finding 1 (some 1) richFinding).cvss_score = 98/10 := by
  have he := normalizer_defaults emptyFinding 1 (some 1)
  have hr := normalizer_defaults richFinding 1 (some 1)
  exact ⟨he.1 rfl, he.2.2.2.2.1 rfl, he.2.2.2.2.2.2.1 rfl, he.2.2.2.2.2.2.2.2.1 rfl,
    hr.2.2.2.2.2.1 "critical" rfl, hr.2.2.2.2.2.2.2.1 (98/10) rfl⟩

/-- Analogue of `get_scan_set_scan` for the models table. -/
theorem get_model_set_model (db : ModelDb) (k : Nat) (f : MLModel → MLModel)
    (hf : ∀ m, (f m).id = m.id) :
    get_model (set_model db k f) k = (get_model db k).map f := by
  induction db with
  | nil => rfl
  | cons a l ih =>
      by_cases h : a.id = k
      · have hfa : (f a).id = k := (hf a).trans h
        simp [get_model, set_model, List.find?_cons, h, hfa]
      · have hne : (a.id == k) = false := by simpa using h
        simp only [get_model, set_model, List.map_cons, hne, Bool.false_eq_true, if_false,
          List.find?_cons, cond_false] at *
        exact ih

/-- Folding `pickLatest` from a seed never loses the accumulator. -/
theorem foldl_pickLatest_ne_none (l : List MLModel) :
    ∀ acc : MLModel, l.foldl pickLatest (some acc) ≠ none := by
  induction l with
  | nil =>
      intro acc h
      exact Option.noConfusion h
  | cons a t ih =>
      intro acc
      simp only [List.foldl_cons]
      by_cases hlt : acc.updated_at < a.updated_at <;> simp only [pickLatest, hlt, if_true,
        if_false, reduceIte] <;> apply ih

/-- Folding `pickLatest` returns an element of the seed-extended list whose
`updated_at` dominates the seed and every element. -/
theorem foldl_pickLatest_spec (l : List MLModel) :
    ∀ acc m : MLModel, l.foldl pickLatest (some acc) = some m →
      (m = acc ∨ m ∈ l) ∧ acc.updated_at ≤ m.updated_at ∧
        ∀ x ∈ l, x.updated_at ≤ m.updated_at := by
  induction l with
  | nil =>
      intro acc m h
      simp only [List.foldl_nil, Option.some.injEq] at h
      subst h
      exact ⟨Or.inl rfl, le_refl _, by simp⟩
  | cons a t ih =>
      intro acc m h
      simp only [List.foldl_cons] at h
      by_cases hlt : acc.updated_at < a.updated_at
      · have hp : pickLatest (some acc) a = some a := by simp [pickLatest, hlt]
        rw [hp] at h
        obtain ⟨hmem, hle, hall⟩ := ih a m h
        refine ⟨?_, le_trans (le_of_lt hlt) hle, ?_⟩
        · rcases hmem with rfl | hm
          · exact Or.inr (List.mem_cons_self m t)
          · exact Or.inr (List.mem_cons_of_mem a hm)
        · intro x hx
          rcases List.mem_cons.mp hx with rfl | hx'
          · exact hle
          · exact hall x hx'
      · have hp : pickLatest (some acc) a = some acc := by simp [pickLatest, hlt]
        rw [hp] at h
        obtain ⟨hmem, hle, hall⟩ := ih acc m h
        refine ⟨?_, hle, ?_⟩
        · rcases hmem with rfl | hm
          · exact Or.inl rfl
          · exact Or.inr (List.mem_cons_of_mem a hm)
        · intro x hx
          rcases List.mem_cons.mp hx with rfl | hx'
          · exact le_trans (le_of_not_lt hlt) hle
          · exact hall x hx'

/-- The fallback query returns `none` exactly when no trained model with a
non-null payload exists, and otherwise a trained, payload-bearing row with
maximal `updated_at`. -/
theorem latest_trained_model_spec (db : ModelDb) :
    (latest_trained_model db = none ↔
      db.filter (fun m => m.status == "trained" && m.model_data.isSome) = []) ∧
    ∀ m, latest_trained_model db = some m →
      m ∈ db ∧ m.status = "trained" ∧ m.model_data.isSome = true ∧
      ∀ m' ∈ db, m'.status = "trained" → m'.model_data.isSome = true →
        m'.updated_at ≤ m.updated_at := by
  constructor
  · unfold latest_trained_model
    cases hf : db.filter (fun m => m.status == "trained" && m.model_data.isSome) with
    | nil => simp
    | cons a t =>
        simp only [List.foldl_cons]
        rw [show pickLatest none a = some a from rfl]
        constructor
        · intro h
          exact absurd h (foldl_pickLatest_ne_none t a)
        · intro h
          exact List.noConfusion h
  · intro m hm
    unfold latest_trained_model at hm
    cases hf : db.filter (fun m => m.status == "trained" && m.model_data.isSome) with
    | nil =>
        rw [hf] at hm
        exact Option.noConfusion hm
    | cons a t =>
        rw [hf] at hm
        simp only [List.foldl_cons] at hm
        rw [show pickLatest none a = some a from rfl] at hm
        obtain ⟨hmem, hacc, hall⟩ := foldl_pickLatest_spec t a m hm
        have hmfilter : m ∈ db.filter (fun m => m.status == "trained" && m.model_data.isSome) := by
          rw [hf]
          rcases hmem with rfl | h'
          · exact List.mem_cons_self m t
          · exact List.mem_cons_of_mem a h'
        have hmdb := List.mem_of_mem_filter hmfilter
        have hmpred := List.of_mem_filter hmfilter
        simp only [Bool.and_eq_true, beq_iff_eq] at hmpred
        refine ⟨hmdb, hmpred.1, hmpred.2, ?_⟩
        intro m' hm' hst hpay
        have hm'filter : m' ∈ db.filter (fun m => m.status == "trained" && m.model_data.isSome) := by
          exact List.mem_filter.mpr ⟨hm', by simp [hst, hpay]⟩
        rw [hf] at hm'filter
        rcases List.mem_cons.mp hm'filter with rfl | h'
        · exact hacc
        · exact hall m' h'

/-- The predictor's internal error messages never collide with the
model-selection failure message. -/
theorem predict_error_prefix_ne (e : String) :
    "Error predicting vulnerability priority: " ++ e ≠ "No trained model found" := by
  intro h
  have hlen := congrArg String.length h
  rw [String.length_append] at hlen
  have h1 : ("Error predicting vulnerability priority: ").length = 41 := rfl
  have h2 : ("No trained model found").length = 22 := rfl
  rw [h1, h2] at hlen
  omega

/-- C5: model selection for prediction.  Under the well-formedness of every
reachable table — stored payloads are pickled estimators, never the empty
byte string, and ids are positive — (a) an explicitly supplied id naming a
`trained` model with a non-null payload is the model used; (b) any selected
model is a trained, payload-bearing row of the table; (c) when the explicit
id does not qualify the fallback is used, and the fallback picks a trained,
payload-bearing row with maximal `updated_at`; (d) when no trained model
with a non-null payload exists, prediction fails with exactly
`"No trained model found"`; (e) whenever a model is selected, prediction
never returns that error. -/
theorem predict_model_selection (db : ModelDb) (vd : VulnData)
    (unpickle : ModelBytes → Except String FittedModel) (now : Nat)
    (hwf : ∀ m ∈ db, m.model_data ≠ some ([] : ModelBytes)) :
    (∀ mid m, mid ≠ 0 → get_model db mid = some m → m.status = "trained" →
      m.model_data.isSome = true → get_latest_model db (some mid) = some m) ∧
    (∀ model_id m, get_latest_model db model_id = some m →
      m ∈ db ∧ m.status = "trained" ∧ m.model_data.isSome = true) ∧
    (∀ mid, (∀ m, get_model db mid = some m →
        ¬(m.status = "trained" ∧ model_data_truthy m.model_data = true)) →
      get_latest_model db (some mid) = latest_trained_model db) ∧
    (get_latest_model db none = latest_trained_model db) ∧
    (∀ m, latest_trained_model db = some m →
      m ∈ db ∧ m.status = "trained" ∧ m.model_data.isSome = true ∧
      ∀ m' ∈ db, m'.status = "trained" → m'.model_data.isSome = true →
        m'.updated_at ≤ m.updated_at) ∧
    ((∀ m ∈ db, ¬(m.status = "trained" ∧ m.model_data.isSome = true)) →
      ∀ model_id, predict_vulnerability_priority db vd model_id unpickle now =
        Except.error "No trained model found") ∧
    (∀ model_id m, get_latest_model db model_id = some m →
      predict_vulnerability_priority db vd model_id unpickle now ≠
        Except.error "No trained model found") := by
  have hmem : ∀ mid m, get_model db mid = some m → m ∈ db := by
    intro mid m h
    exact List.mem_of_find?_eq_some h
  have hempty : (∀ m ∈ db, ¬(m.status = "trained" ∧ m.model_data.isSome = true)) →
      latest_trained_model db = none := by
    intro hno
    apply (latest_trained_model_spec db).1.mpr
    apply List.filter_eq_nil_iff.mpr
    intro m hm
    intro hp
    simp only [Bool.and_eq_true, beq_iff_eq] at hp
    exact hno m hm hp
  have hlatest : ∀ m, latest_trained_model db = some m →
      m ∈ db ∧ m.status = "trained" ∧ m.model_data.isSome = true := by
    intro m h
    have := ((latest_trained_model_spec db).2 m h)
    exact ⟨this.1, this.2.1, this.2.2.1⟩
  have hsel : ∀ model_id m, get_latest_model db model_id = some m →
      m ∈ db ∧ m.status = "trained" ∧ m.model_data.isSome = true := by
    intro model_id m h
    rcases model_id with _ | mid
    · exact hlatest m h
    · simp only [get_latest_model] at h
      by_cases h0 : (mid == 0) = true
      · rw [if_pos h0] at h
        exact hlatest m h
      · rw [if_neg h0] at h
        cases hg : get_model db mid with
        | none =>
            simp only [hg] at h
            exact hlatest m h
        | some m0 =>
            simp only [hg] at h
            by_cases hq : (m0.status == "trained" && model_data_truthy m0.model_data) = true
            · rw [if_pos hq] at h
              simp only [Option.some.injEq] at h
              subst h
              simp only [Bool.and_eq_true, beq_iff_eq] at hq
              refine ⟨hmem mid m0 hg, hq.1, ?_⟩
              cases hd : m0.model_data with
              | none =>
                  rw [hd] at hq
                  exact absurd hq.2 (by simp [model_data_truthy])
              | some bs =>
                  rfl
            · rw [if_neg hq] at h
              exact hlatest m h
  refine ⟨?_, hsel, ?_, rfl, (latest_trained_model_spec db).2, ?_, ?_⟩
  · intro mid m hne hg hst hpay
    have h0 : (mid == 0) = false := by simpa using hne
    have htruthy : model_data_truthy m.model_data = true := by
      cases hd : m.model_data with
      | none => rw [hd] at hpay; exact absurd hpay (by simp)
      | some bs =>
          have : bs ≠ [] := by
            intro hbs
            exact hwf m (hmem mid m hg) (by rw [hd, hbs])
          simp [model_data_truthy, this]
    simp only [get_latest_model, h0, Bool.false_eq_true, if_false, hg, hst, htruthy]
    simp
  · intro mid hno
    simp only [get_latest_model]
    by_cases h0 : (mid == 0) = true
    · rw [if_pos h0]
    · rw [if_neg h0]
      cases hg : get_model db mid with
      | none => simp only [hg]
      | some m0 =>
          have hq : (m0.status == "trained" && model_data_truthy m0.model_data) = false := by
            by_contra hq'
            have hq2 : (m0.status == "trained" && model_data_truthy m0.model_data) = true := by
              revert hq'
              cases (m0.status == "trained" && model_data_truthy m0.model_data) <;> simp
            simp only [Bool.and_eq_true, beq_iff_eq] at hq2
            exact hno m0 hg ⟨hq2.1, hq2.2⟩
          simp only [hg, hq]
          simp
  · intro hno model_id
    have hlat := hempty hno
    have hgl : get_latest_model db model_id = none := by
      rcases model_id with _ | mid
      · exact hlat
      · simp only [get_latest_model]
        by_cases h0 : (mid == 0) = true
        · rw [if_pos h0]
          exact hlat
        · rw [if_neg h0]
          cases hg : get_model db mid with
          | none =>
              simp only [hg]
              exact hlat
          | some m0 =>
              have hnq : ¬(m0.status = "trained" ∧ m0.model_data.isSome = true) :=
                hno m0 (hmem mid m0 hg)
              have hq : (m0.status == "trained" && model_data_truthy m0.model_data) = false := by
                by_contra hq'
                have hq2 : (m0.status == "trained" && model_data_truthy m0.model_data) = true := by
                  revert hq'
                  cases (m0.status == "trained" && model_data_truthy m0.model_data) <;> simp
                simp only [Bool.and_eq_true, beq_iff_eq] at hq2
                refine hnq ⟨hq2.1, ?_⟩
                cases hd : m0.model_data with
                | none => rw [hd] at hq2; exact absurd hq2.2 (by simp [model_data_truthy])
                | some bs => simp
              simp only [hg, hq, Bool.false_eq_true, if_false]
              exact hlat
    simp only [predict_vulnerability_priority, hgl]
  · intro model_id m h
    cases hd : m.model_data with
    | none =>
        simp only [predict_vulnerability_priority, h, hd]
        intro hcontra
        simp only [Except.error.injEq] at hcontra
        exact predict_error_prefix_ne "payload is null" hcontra
    | some bs =>
        cases hu : unpickle bs with
        | error e =>
            simp only [predict_vulnerability_priority, h, hd, hu]
            intro hcontra
            simp only [Except.error.injEq] at hcontra
            exact predict_error_prefix_ne e hcontra
        | ok fm =>
            simp only [predict_vulnerability_priority, h, hd, hu]
            intro hcontra
            exact Except.noConfusion hcontra

/-- C5 (witness): in a table holding two trained models (ids 1 and 2, the
second updated later) and a draft without payload, the explicit id 1 is
used; with no explicit id the fallback picks the most recently updated
trained model (id 2); against a table with only the draft, prediction fails
with exactly the no-trained-model error. -/
theorem predict_model_selection_witness :
    get_latest_model [trainedModelA, trainedModelB, createdModel] (some 1) = some trainedModelA ∧
    get_latest_model [trainedModelA, trainedModelB, createdModel] none = some trainedModelB ∧
    predict_vulnerability_priority [createdModel] {} none stubUnpickle 0 =
      Except.error "No trained model found" := by
  have h := predict_model_selection [trainedModelA, trainedModelB, createdModel] {}
    stubUnpickle 0 (by decide)
  have h2 := predict_model_selection [createdModel] {} stubUnpickle 0 (by decide)
  refine ⟨h.1 1 trainedModelA (by decide) rfl rfl rfl, ?_, ?_⟩
  · rw [h.2.2.2.1]
    rfl
  · exact h2.2.2.2.2.2.1 (by decide) none

/-- C6: a failed fit leaves the model record with status `error` and the
payload exactly as it was before the run — nothing partial is written and no
prior payload is overwritten — and the function returns `None`. -/
theorem train_failure_preserves_payload (db : ModelDb) (model_id : Nat)
    (params : List (String × ℚ)) (e : String) (t1 t2 : Nat) (m : MLModel)
    (hm : get_model db model_id = some m) :
    (get_model (train_model db model_id params (Except.error e) t1 t2).1 model_id).map
      (fun r => (r.status, r.model_data)) = some ("error", m.model_data) ∧
    (train_model db model_id params (Except.error e) t1 t2).2 = none := by
  simp only [train_model, hm]
  refine ⟨?_, trivial⟩
  rw [get_model_set_model]
  · rw [get_model_set_model]
    · rw [hm]
      rfl
    · intro t
      rfl
  · intro t
    rfl

/-- C6 (witness): training the stored trained model with a failing fit ends
with status `error` and the original payload bytes untouched. -/
theorem train_failure_preserves_payload_witness :
    (get_model (train_model [trainedModelA] 1 [] (Except.error "fit blew up") 6 7).1 1).map
      (fun r => (r.status, r.model_data)) = some ("error", some [128, 4, 149]) ∧
    (train_model [trainedModelA] 1 [] (Except.error "fit blew up") 6 7).2 = none :=
  train_failure_preserves_payload [trainedModelA] 1 [] "fit blew up" 6 7 trainedModelA rfl

/-- C9: `get_priority_class` returns `critical` exactly on scores ≥ 0.8,
`high` exactly on [0.6, 0.8), `medium` exactly on [0.4, 0.6), `low`
otherwise; the thresholds 0.8, 0.6 and 0.4 map to `critical`, `high` and
`medium`, and the spec's sample points behave as stated. -/
theorem get_priority_class_thresholds (score : ℚ) :
    (get_priority_class score = "critical" ↔ 4/5 ≤ score) ∧
    (get_priority_class score = "high" ↔ 3/5 ≤ score ∧ score < 4/5) ∧
    (get_priority_class score = "medium" ↔ 2/5 ≤ score ∧ score < 3/5) ∧
    (get_priority_class score = "low" ↔ score < 2/5) ∧
    get_priority_class (8/10) = "critical" ∧
    get_priority_class (6/10) = "high" ∧
    get_priority_class (4/10) = "medium" ∧
    get_priority_class (85/100) = "critical" ∧
    get_priority_class (65/100) = "high" ∧
    get_priority_class (45/100) = "medium" ∧
    get_priority_class (1/10) = "low" := by
  have Hval : ∀ s : ℚ, (4/5 ≤ s → get_priority_class s = "critical") ∧
      (3/5 ≤ s → s < 4/5 → get_priority_class s = "high") ∧
      (2/5 ≤ s → s < 3/5 → get_priority_class s = "medium") ∧
      (s < 2/5 → get_priority_class s = "low") := by
    intro s
    unfold get_priority_class
    refine ⟨?_, ?_, ?_, ?_⟩
    · intro h
      rw [if_pos (by linarith)]
    · intro ha hb
      rw [if_neg (by intro hge; linarith), if_pos (by linarith)]
    · intro ha hb
      rw [if_neg (by intro hge; linarith), if_neg (by intro hge; linarith),
        if_pos (by linarith)]
    · intro h
      rw [if_neg (by intro hge; linarith), if_neg (by intro hge; linarith),
        if_neg (by intro hge; linarith)]
  have H : ∀ s : ℚ,
      (get_priority_class s = "critical" ↔ 4/5 ≤ s) ∧
      (get_priority_class s = "high" ↔ 3/5 ≤ s ∧ s < 4/5) ∧
      (get_priority_class s = "medium" ↔ 2/5 ≤ s ∧ s < 3/5) ∧
      (get_priority_class s = "low" ↔ s < 2/5) := by
    intro s
    obtain ⟨hc, hh, hm, hl⟩ := Hval s
    refine ⟨⟨?_, hc⟩, ⟨?_, fun hx => hh hx.1 hx.2⟩, ⟨?_, fun hx => hm hx.1 hx.2⟩, ⟨?_, hl⟩⟩
    · intro hv
      by_contra hcon
      push_neg at hcon
      rcases lt_or_le s (2/5) with h3 | h3
      · rw [hl h3] at hv
        exact absurd hv (by decide)
      · rcases lt_or_le s (3/5) with h2 | h2
        · rw [hm h3 h2] at hv
          exact absurd hv (by decide)
        · rw [hh h2 hcon] at hv
          exact absurd hv (by decide)
    · intro hv
      rcases lt_or_le s (4/5) with hb | hb
      · rcases lt_or_le s (3/5) with h2 | h2
        · rcases lt_or_le s (2/5) with h3 | h3
          · rw [hl h3] at hv
            exact absurd hv (by decide)
          · rw [hm h3 h2] at hv
            exact absurd hv (by decide)
        · exact ⟨h2, hb⟩
      · rw [hc hb] at hv
        exact absurd hv (by decide)
    · intro hv
      rcases lt_or_le s (3/5) with hb | hb
      · rcases lt_or_le s (2/5) with h2 | h2
        · rw [hl h2] at hv
          exact absurd hv (by decide)
        · exact ⟨h2, hb⟩
      · rcases lt_or_le s (4/5) with h3 | h3
        · rw [hh hb h3] at hv
          exact absurd hv (by decide)
        · rw [hc h3] at hv
          exact absurd hv (by decide)
    · intro hv
      by_contra hcon
      push_neg at hcon
      rcases lt_or_le s (3/5) with h2 | h2
      · rw [hm hcon h2] at hv
        exact absurd hv (by decide)
      · rcases lt_or_le s (4/5) with h3 | h3
        · rw [hh h2 h3] at hv
          exact absurd hv (by decide)
        · rw [hc h3] at hv
          exact absurd hv (by decide)
  refine ⟨(H score).1, (H score).2.1, (H score).2.2.1, (H score).2.2.2, ?_, ?_, ?_, ?_, ?_, ?_, ?_⟩
  · exact (H _).1.mpr (by norm_num)
  · exact (H _).2.1.mpr (by norm_num)
  · exact (H _).2.2.1.mpr (by norm_num)
  · exact (H _).1.mpr (by norm_num)
  · exact (H _).2.1.mpr (by norm_num)
  · exact (H _).2.2.1.mpr (by norm_num)
  · exact (H _).2.2.2.mpr (by norm_num)

/-- C10 (counterexample): the claim says absent fields contribute `0`/false.
For an input with no keys at all, the absent severity defaults to `"low"`,
so the `severity_low` indicator is `1`, not `0` (the other severity
indicators are `0`). -/
theorem missing_severity_scores_one :
    (get_vulnerability_features {}).lookup "severity_low" = some 1 ∧
    (get_vulnerability_features {}).lookup "severity_critical" = some 0 ∧
    (get_vulnerability_features {}).lookup "severity_high" = some 0 ∧
    (get_vulnerability_features {}).lookup "severity_medium" = some 0 := by
  decide

/-- C10 (amended): the feature extractor emits the same fixed 23 keys in
the same fixed order for every input, never an error; absent numeric and
boolean fields contribute `0`, absent exploit-maturity, business-impact,
data-classification and system-exposure fields yield all-zero indicator
groups, and an absent severity defaults to the `"low"` bucket (indicator 1)
rather than to an all-zero group. -/
theorem feature_vector_fixed (vd : VulnData) :
    ((get_vulnerability_features vd).map Prod.fst = featureNameOrder ∧
      (get_vulnerability_features vd).length = 23) ∧
    (vd.cvss_score = none → (get_vulnerability_features vd).lookup "cvss_score" = some 0) ∧
    (vd.exploit_available = none →
      (get_vulnerability_features vd).lookup "exploit_available" = some 0) ∧
    (vd.patch_available = none →
      (get_vulnerability_features vd).lookup "patch_available" = some 0) ∧
    (vd.severity = none →
      (get_vulnerability_features vd).lookup "severity_low" = some 1 ∧
      (get_vulnerability_features vd).lookup "severity_critical" = some 0 ∧
      (get_vulnerability_features vd).lookup "severity_high" = some 0 ∧
      (get_vulnerability_features vd).lookup "severity_medium" = some 0) ∧
    (vd.exploit_maturity = none →
      (get_vulnerability_features vd).lookup "exploit_maturity_high" = some 0 ∧
      (get_vulnerability_features vd).lookup "exploit_maturity_functional" = some 0 ∧
      (get_vulnerability_features vd).lookup "exploit_maturity_poc" = some 0 ∧
      (get_vulnerability_features vd).lookup "exploit_maturity_unproven" = some 0) ∧
    (vd.business_impact = none →
      (get_vulnerability_features vd).lookup "business_impact_critical" = some 0 ∧
      (get_vulnerability_features vd).lookup "business_impact_high" = some 0 ∧
      (get_vulnerability_features vd).lookup "business_impact_medium" = some 0 ∧
      (get_vulnerability_features vd).lookup "business_impact_low" = some 0) ∧
    (vd.data_classification = none →
      (get_vulnerability_features vd).lookup "data_classification_restricted" = some 0 ∧
      (get_vulnerability_features vd).lookup "data_classification_confidential" = some 0 ∧
      (get_vulnerability_features vd).lookup "data_classification_internal" = some 0 ∧
      (get_vulnerability_features vd).lookup "data_classification_public" = some 0) ∧
    (vd.system_exposure = none →
      (get_vulnerability_features vd).lookup "system_exposure_internet" = some 0 ∧
      (get_vulnerability_features vd).lookup "system_exposure_intranet" = some 0 ∧
      (get_vulnerability_features vd).lookup "system_exposure_internal" = some 0 ∧
      (get_vulnerability_features vd).lookup "system_exposure_isolated" = some 0) := by
  refine ⟨⟨rfl, rfl⟩, ?_, ?_, ?_, ?_, ?_, ?_, ?_, ?_⟩ <;>
    · intro h
      simp only [get_vulnerability_features, h]
      first
        | rfl
        | exact ⟨rfl, rfl, rfl, rfl⟩

/-- C10 (witness): the shape and default clauses realized on the empty
input dictionary. -/
theorem feature_vector_fixed_witness :
    (get_vulnerability_features {}).map Prod.fst = featureNameOrder ∧
    (get_vulnerability_features {}).lookup "cvss_score" = some 0 ∧
    (get_vulnerability_features {}).lookup "exploit_maturity_poc" = some 0 := by
  have h := feature_vector_fixed {}
  exact ⟨h.1.1, h.2.1 rfl, (h.2.2.2.2.2.1 rfl).2.2.1⟩

end IntelliVulnScan
